import Mathlib

/-!
Shallow embedding of the websocket core of the `blutgang` JSON-RPC load
balancer (`src/websocket/client.rs`, `src/websocket/types.rs`) together with
proofs about the embedded operations.

Conventions of the embedding:
* `serde_json::Value` becomes the inductive `Json` below; indexing a value by
  a field name (`v["id"]`) becomes `Json.getField`, and the `IndexMut`
  assignment `v["id"] = x` becomes `Json.setField` (total on objects, the
  only case that the embedded code exercises; serde panics on other shapes).
* Channels are made explicit: the stream of values a `broadcast::Receiver`
  yields is a `List Json`, and functions that send on channels return the
  list of messages they sent.
* `u32` user ids and `usize` node ids become `Nat`; the `u32` wire id draw
  `random::<u32>()` becomes an explicit random stream reduced mod `2 ^ 32`.
* `HashMap` becomes an association list with replace-or-append insertion
  (`ainsert`), first-match lookup (`alookup`) and key-filtering removal
  (`aerase`); `HashSet<u32>` becomes a duplicate-free `List Nat` with
  guarded insertion (`sinsert`) and filtering removal (`sremove`).
-/

namespace Blutgang

/-- The subset of `serde_json::Value` shapes the embedded code manipulates. -/
inductive Json where
  | null : Json
  | bool (b : Bool) : Json
  | num (n : Int) : Json
  | str (s : String) : Json
  | arr (xs : List Json) : Json
  | obj (fields : List (String × Json)) : Json

mutual

/-- Structural equality of `Json` values, embedding serde's `PartialEq` on
`Value` (the embedded code only ever compares primitive `id` values, where
serde's order-insensitive object comparison and this structural one agree). -/
def Json.beq : Json → Json → Bool
  | .null, .null => true
  | .bool a, .bool b => a == b
  | .num a, .num b => a == b
  | .str a, .str b => a == b
  | .arr xs, .arr ys => Json.beqList xs ys
  | .obj xs, .obj ys => Json.beqFields xs ys
  | _, _ => false

/-- Pointwise `Json.beq` on arrays. -/
def Json.beqList : List Json → List Json → Bool
  | [], [] => true
  | x :: xs, y :: ys => Json.beq x y && Json.beqList xs ys
  | _, _ => false

/-- Pointwise `Json.beq` on object field lists. -/
def Json.beqFields : List (String × Json) → List (String × Json) → Bool
  | [], [] => true
  | (k1, v1) :: xs, (k2, v2) :: ys => k1 == k2 && Json.beq v1 v2 && Json.beqFields xs ys
  | _, _ => false

end

instance : BEq Json := ⟨Json.beq⟩

/-- `v[key]` for reading: on an object, the first field named `key`
(`Value::Null` when absent); `Value::Null` on every other shape, as with
serde's `Index for Value`. -/
def Json.getField (v : Json) (key : String) : Json :=
  match v with
  | .obj fields =>
    match fields.find? (fun p => p.1 == key) with
    | some p => p.2
    | none => .null
  | _ => .null

/-- `v[key] = x`: on an object, replace the field named `key` (every
occurrence, so exactly the single one of a well-formed object) or append it;
other shapes are returned unchanged (serde panics there; the embedded runs
only ever assign into objects). -/
def Json.setField (v : Json) (key : String) (x : Json) : Json :=
  match v with
  | .obj fields =>
    if (fields.find? (fun p => p.1 == key)).isSome then
      .obj (fields.map (fun p => if p.1 == key then (key, x) else p))
    else
      .obj (fields ++ [(key, x)])
  | w => w

/-- `random::<u32>()` as consumed by `execute_ws_call`: the `call_idx`-th
draw of an ambient random stream, reduced to 32 bits.  The source allocates
one fresh draw per call and nothing ties distinct draws together. -/
def wire_id (randStream : Nat → Nat) (call_idx : Nat) : Nat :=
  randStream call_idx % 2 ^ 32

/-- `execute_ws_call` from `src/websocket/client.rs` (lines 127-167), with
the channels made explicit.  Inputs: the parsed call value, the random draw
used as wire id, and the stream of values the broadcast receiver yields.
Output: the value sent to `ws_conn_manager` (the call with `id` overwritten
by the wire id) and, when the receive loop terminates on this stream, the
accepted response after `response["id"] = id` restores the original id.
`none` means the loop `while response["id"] != id` never finds a match and
the source blocks forever.  The source finally wraps the response in the
text `format!("Hello from blutgang!: {:?}", response)`; the embedding keeps
the response value itself. -/
def execute_ws_call (call_val : Json) (rand_id : Nat) (stream : List Json) :
    Json × Option Json :=
  let id := call_val.getField "id"
  let sent := call_val.setField "id" (Json.num (Int.ofNat (rand_id % 2 ^ 32)))
  match stream.find? (fun response => response.getField "id" == id) with
  | some response => (sent, some (response.setField "id" id))
  | none => (sent, none)

/-- What one iteration of the receive loop of `ws_conn_manager`
(`src/websocket/client.rs` lines 66-77) does with a received message:
`pick` is evaluated under the registry write lock to obtain `rpc_position`,
and the body performs no sends, so `forwarded` records the (empty) list of
pushes onto worker outbound queues. -/
structure ManagerIteration where
  rpc_position : Nat
  forwarded : List (Nat × Json)

/-- One iteration of the `ws_conn_manager` loop, faithful to the source: it
receives `_incoming`, computes the selector's choice, and forwards nothing. -/
def ws_conn_manager_iteration (pick_position : Nat) (_incoming : Json) :
    ManagerIteration :=
  { rpc_position := pick_position, forwarded := [] }

/-! ### Association-list embedding of `HashMap` and `HashSet` -/

/-- `HashMap::get`: value of the first pair whose key matches. -/
def alookup {K V : Type} [BEq K] : List (K × V) → K → Option V
  | [], _ => none
  | p :: t, k => if p.1 == k then some p.2 else alookup t k

/-- `HashMap::insert`: replace the first pair with this key, else append. -/
def ainsert {K V : Type} [BEq K] : List (K × V) → K → V → List (K × V)
  | [], k, v => [(k, v)]
  | p :: t, k, v => if p.1 == k then (k, v) :: t else p :: ainsert t k v

/-- `HashMap::remove`: drop every pair with this key (at most one in a
well-formed map). -/
def aerase {K V : Type} [BEq K] (m : List (K × V)) (k : K) : List (K × V) :=
  m.filter (fun p => !(p.1 == k))

/-- `HashSet::insert` on a duplicate-free list. -/
def sinsert (s : List Nat) (u : Nat) : List Nat :=
  if s.contains u then s else s ++ [u]

/-- `HashSet::remove`. -/
def sremove (s : List Nat) (u : Nat) : List Nat :=
  s.filter (fun x => !(x == u))

/-! ### `src/websocket/types.rs` -/

/-- `RequestResult`: a direct call reply or a subscription notification. -/
inductive RequestResult where
  | Call (v : Json) : RequestResult
  | Subscription (v : Json) : RequestResult

/-- `UserData`: the per-user outbound channel, embedded as an abstract
channel handle; what is sent on it is returned by `dispatch_to_subscribers`. -/
structure UserData where
  message_channel : Nat
deriving DecidableEq

/-- `NodeSubInfo`: the physical subscription key `(node_id, subscription_id)`. -/
structure NodeSubInfo where
  node_id : Nat
  subscription_id : String
deriving DecidableEq

/-- `SubscriptionData`: the three registry maps (each behind its own
`RwLock` in the source; the embedding is sequential, matching the lock-free
view any single operation observes). -/
structure SubscriptionData where
  users : List (Nat × UserData)
  subscriptions : List (NodeSubInfo × List Nat)
  incoming_subscriptions : List (String × NodeSubInfo)
deriving DecidableEq

/-- `SubscriptionData::new`. -/
def SubscriptionData.new : SubscriptionData :=
  { users := [], subscriptions := [], incoming_subscriptions := [] }

/-- `SubscriptionData::add_user` (types.rs lines 86-89). -/
def add_user (s : SubscriptionData) (user_id : Nat) (user_data : UserData) :
    SubscriptionData :=
  { s with users := ainsert s.users user_id user_data }

/-- `SubscriptionData::remove_user` (types.rs lines 91-99): the user entry is
removed, and only when it was present is `user_id` evicted from every
subscriber set. -/
def remove_user (s : SubscriptionData) (user_id : Nat) : SubscriptionData :=
  if (alookup s.users user_id).isSome then
    { s with
      users := aerase s.users user_id,
      subscriptions := s.subscriptions.map (fun p => (p.1, sremove p.2 user_id)) }
  else
    { s with users := aerase s.users user_id }

/-- `SubscriptionData::register_subscription` (types.rs lines 102-118). -/
def register_subscription (s : SubscriptionData) (subscription_request : String)
    (subscription_id : String) (node_id : Nat) : SubscriptionData :=
  { s with
    incoming_subscriptions :=
      ainsert s.incoming_subscriptions subscription_request
        { node_id := node_id, subscription_id := subscription_id } }

/-- `SubscriptionData::unregister_subscription` (types.rs lines 120-123). -/
def unregister_subscription (s : SubscriptionData) (subscription_request : String) :
    SubscriptionData :=
  { s with
    incoming_subscriptions := aerase s.incoming_subscriptions subscription_request }

/-- `SubscriptionData::subscribe_user` (types.rs lines 128-143), returning
the `Result` together with the updated state. -/
def subscribe_user (s : SubscriptionData) (user_id : Nat) (subscription : String) :
    Except String String × SubscriptionData :=
  match alookup s.incoming_subscriptions subscription with
  | none =>
    (.error ("Subscription " ++ subscription ++ " does not exist!"), s)
  | some node_sub_info =>
    let cur := (alookup s.subscriptions node_sub_info).getD []
    (.ok node_sub_info.subscription_id,
      { s with subscriptions := ainsert s.subscriptions node_sub_info (sinsert cur user_id) })

/-- `SubscriptionData::unsubscribe_user` (types.rs lines 146-163): collect
every NodeSub whose `subscription_id` matches and whose set contains the
user, then evict the user from each. -/
def unsubscribe_user (s : SubscriptionData) (user_id : Nat) (subscription_id : String) :
    SubscriptionData :=
  { s with
    subscriptions := s.subscriptions.map (fun p =>
      if p.1.subscription_id == subscription_id && p.2.contains user_id then
        (p.1, sremove p.2 user_id)
      else p) }

/-- `SubscriptionData::dispatch_to_subscribers` (types.rs lines 165-201),
returning the `Result` carrying the list of `(user_id, message)` deliveries
performed on user channels, together with the updated state.  Faithful to
the source: a `Call` message errors out; when the NodeSub has an entry with
an empty subscriber set, `unregister_subscription` is invoked with the
*upstream subscription id* as key; each subscriber present in `users` is
sent a clone of the message, the rest are skipped. -/
def dispatch_to_subscribers (s : SubscriptionData) (subscription_id : String)
    (node_id : Nat) (message : RequestResult) :
    Except String (List (Nat × RequestResult)) × SubscriptionData :=
  match message with
  | .Call _ => (.error "Trying to send a call as a subscription!", s)
  | .Subscription _ =>
    let node_sub_info : NodeSubInfo :=
      { node_id := node_id, subscription_id := subscription_id }
    match alookup s.subscriptions node_sub_info with
    | none => (.ok [], s)
    | some subscribers =>
      let s1 := if subscribers.isEmpty then unregister_subscription s subscription_id else s
      let delivered :=
        (subscribers.filter (fun u => (alookup s.users u).isSome)).map
          (fun u => (u, message))
      (.ok delivered, s1)

/-! ### Invariants and reachability -/

/-- The user-reference invariant of the spec: every user id in any
subscriber set is a key of `users`. -/
def usersClosed (s : SubscriptionData) : Bool :=
  s.subscriptions.all (fun p => p.2.all (fun u => (alookup s.users u).isSome))

/-- No subscriber set of `s` contains `u`. -/
def noSubscriber (s : SubscriptionData) (u : Nat) : Bool :=
  s.subscriptions.all (fun p => !(p.2.contains u))

/-- States reachable from the empty registry by arbitrary sequences of the
seven registry operations. -/
inductive Reachable : SubscriptionData → Prop where
  | init : Reachable SubscriptionData.new
  | addUser {s} (uid : Nat) (ud : UserData) :
      Reachable s → Reachable (add_user s uid ud)
  | removeUser {s} (uid : Nat) :
      Reachable s → Reachable (remove_user s uid)
  | registerSub {s} (k sid : String) (nid : Nat) :
      Reachable s → Reachable (register_subscription s k sid nid)
  | unregisterSub {s} (k : String) :
      Reachable s → Reachable (unregister_subscription s k)
  | subscribeUser {s} (uid : Nat) (k : String) :
      Reachable s → Reachable (subscribe_user s uid k).2
  | unsubscribeUser {s} (uid : Nat) (sid : String) :
      Reachable s → Reachable (unsubscribe_user s uid sid)
  | dispatch {s} (sid : String) (nid : Nat) (msg : RequestResult) :
      Reachable s → Reachable (dispatch_to_subscribers s sid nid msg).2

/-- States reachable from the empty registry when every `subscribe_user`
call is made for a user id currently present in `users` (the discipline the
intended caller follows: users are added on connect, before subscribing). -/
inductive ReachableGuarded : SubscriptionData → Prop where
  | init : ReachableGuarded SubscriptionData.new
  | addUser {s} (uid : Nat) (ud : UserData) :
      ReachableGuarded s → ReachableGuarded (add_user s uid ud)
  | removeUser {s} (uid : Nat) :
      ReachableGuarded s → ReachableGuarded (remove_user s uid)
  | registerSub {s} (k sid : String) (nid : Nat) :
      ReachableGuarded s → ReachableGuarded (register_subscription s k sid nid)
  | unregisterSub {s} (k : String) :
      ReachableGuarded s → ReachableGuarded (unregister_subscription s k)
  | subscribeUser {s} (uid : Nat) (k : String) :
      ReachableGuarded s → (alookup s.users uid).isSome = true →
      ReachableGuarded (subscribe_user s uid k).2
  | unsubscribeUser {s} (uid : Nat) (sid : String) :
      ReachableGuarded s → ReachableGuarded (unsubscribe_user s uid sid)
  | dispatch {s} (sid : String) (nid : Nat) (msg : RequestResult) :
      ReachableGuarded s → ReachableGuarded (dispatch_to_subscribers s sid nid msg).2

/-! ### Concrete scenario inputs -/

/-- The single-call round-trip request of the spec's scenario 1:
`{"jsonrpc":"2.0","id":"abc","method":"eth_blockNumber"}`. -/
def scenarioCall : Json :=
  .obj [("jsonrpc", .str "2.0"), ("id", .str "abc"), ("method", .str "eth_blockNumber")]

/-- The upstream reply of scenario 1, carrying the rewritten wire id
(here the draw `7`) and `"result":"0x10"`. -/
def scenarioWireReply : Json :=
  .obj [("jsonrpc", .str "2.0"), ("id", .num 7), ("result", .str "0x10")]

/-- A broadcast message that carries the caller's *original* id `"abc"`
rather than any wire id. -/
def scenarioOrigIdReply : Json :=
  .obj [("jsonrpc", .str "2.0"), ("id", .str "abc"), ("result", .str "0x10")]

/-- First call of the spec's scenario 2 (caller id `"1"`). -/
def scenarioCallA : Json :=
  .obj [("jsonrpc", .str "2.0"), ("id", .str "1"), ("method", .str "eth_blockNumber")]

/-- Second call of the spec's scenario 2 (caller id `"2"`). -/
def scenarioCallB : Json :=
  .obj [("jsonrpc", .str "2.0"), ("id", .str "2"), ("method", .str "eth_blockNumber")]

/-- Registry state reached by: add user 100, register the request key
`"sub200"` for NodeSub `(1, "200")`, subscribe user 100, unsubscribe user
100.  The NodeSub `(1, "200")` now has an entry with an empty subscriber
set, and `incoming` still maps `"sub200"` to it. -/
def emptySetState : SubscriptionData :=
  unsubscribe_user
    (subscribe_user
      (register_subscription (add_user SubscriptionData.new 100 { message_channel := 0 })
        "sub200" "200" 1)
      100 "sub200").2
    100 "200"

/-- Registry state reached by registering the request key `"k"` for NodeSub
`(0, "s")` and then subscribing user 42 — who was never added to `users`. -/
def ghostUserState : SubscriptionData :=
  (subscribe_user (register_subscription SubscriptionData.new "k" "s" 0) 42 "k").2

/-- Registry state with user 100 added, request key `"sub300"` registered
for NodeSub `(1, "300")`, and users 100 subscribed; user 7 was never added. -/
def oneSubscriberState : SubscriptionData :=
  (subscribe_user
    (register_subscription (add_user SubscriptionData.new 100 { message_channel := 5 })
      "sub300" "300" 1)
    100 "sub300").2

/-- `oneSubscriberState` after additionally subscribing user 7, who was
never added to `users`: NodeSub `(1, "300")` now has subscriber set
`[100, 7]` while `users` only contains 100. -/
def twoSubscriberState : SubscriptionData :=
  (subscribe_user oneSubscriberState 7 "sub300").2

/-! ### Association-list lemmas -/

/-- Lookup after `HashMap::insert`: the inserted key maps to the new value,
every other key is untouched. -/
theorem alookup_ainsert_self {K V : Type} [BEq K] [LawfulBEq K]
    (m : List (K × V)) (k : K) (v : V) :
    alookup (ainsert m k v) k = some v := by
  induction m with
  | nil => simp [ainsert, alookup]
  | cons p t ih =>
    by_cases hp : p.1 = k
    · simp [ainsert, alookup, hp]
    · simp [ainsert, alookup, hp, ih]

/-- Inserting one key leaves lookups at every other key untouched. -/
theorem alookup_ainsert_ne {K V : Type} [BEq K] [LawfulBEq K]
    (m : List (K × V)) (k k2 : K) (v : V) (h : k2 ≠ k) :
    alookup (ainsert m k v) k2 = alookup m k2 := by
  induction m with
  | nil => simp [ainsert, alookup, Ne.symm h]
  | cons p t ih =>
    by_cases hp : p.1 = k
    · simp [ainsert, alookup, hp, Ne.symm h]
    · simp [ainsert, alookup, hp, ih]

/-- Lookup of the removed key fails. -/
theorem alookup_aerase_self {K V : Type} [BEq K] [LawfulBEq K]
    (m : List (K × V)) (k : K) :
    alookup (aerase m k) k = none := by
  induction m with
  | nil => simp [aerase, alookup]
  | cons p t ih =>
    by_cases hp : p.1 = k
    · simp [aerase, List.filter_cons, hp] at ih ⊢
      exact ih
    · simp only [aerase, List.filter_cons] at ih ⊢
      simp [alookup, hp, ih]

/-- Removing one key leaves lookups at every other key untouched. -/
theorem alookup_aerase_ne {K V : Type} [BEq K] [LawfulBEq K]
    (m : List (K × V)) (k k2 : K) (h : k2 ≠ k) :
    alookup (aerase m k) k2 = alookup m k2 := by
  induction m with
  | nil => simp [aerase, alookup]
  | cons p t ih =>
    by_cases hp : p.1 = k
    · simp only [aerase, List.filter_cons] at ih ⊢
      simp [alookup, hp, Ne.symm h, ih]
    · simp only [aerase, List.filter_cons] at ih ⊢
      simp [alookup, hp, ih]

/-- Removing an absent key is a no-op. -/
theorem aerase_eq_of_alookup_none {K V : Type} [BEq K]
    (m : List (K × V)) (k : K) : alookup m k = none → aerase m k = m := by
  induction m with
  | nil => intro _; rfl
  | cons p t ih =>
    intro h
    simp only [alookup] at h
    by_cases hp : (p.1 == k) = true
    · rw [if_pos hp] at h; cases h
    · simp only [Bool.not_eq_true] at hp
      rw [hp] at h
      simp only [Bool.false_eq_true, if_false] at h
      have hstep : aerase (p :: t) k = p :: aerase t k := by
        simp [aerase, List.filter_cons, hp]
      rw [hstep, ih h]

/-- Inserting an absent key appends the new pair. -/
theorem ainsert_eq_append_of_none {K V : Type} [BEq K]
    (m : List (K × V)) (k : K) (v : V) : alookup m k = none →
    ainsert m k v = m ++ [(k, v)] := by
  induction m with
  | nil => intro _; rfl
  | cons p t ih =>
    intro h
    simp only [alookup] at h
    by_cases hp : (p.1 == k) = true
    · rw [if_pos hp] at h; cases h
    · simp only [Bool.not_eq_true] at hp
      rw [hp] at h
      simp only [Bool.false_eq_true, if_false] at h
      have hstep : ainsert (p :: t) k v = p :: ainsert t k v := by
        simp [ainsert, hp]
      rw [hstep, ih h, List.cons_append]

/-- `aerase` distributes over append. -/
theorem aerase_append {K V : Type} [BEq K] (m l : List (K × V)) (k : K) :
    aerase (m ++ l) k = aerase m k ++ aerase l k := by
  simp [aerase, List.filter_append]

/-- Every pair of `ainsert m k v` is the inserted pair or one of `m`. -/
theorem mem_ainsert {K V : Type} [BEq K]
    {m : List (K × V)} {k : K} {v : V} {p : K × V} :
    p ∈ ainsert m k v → p = (k, v) ∨ p ∈ m := by
  induction m with
  | nil =>
    intro h
    simp only [ainsert, List.mem_singleton] at h
    exact Or.inl h
  | cons q t ih =>
    intro h
    simp only [ainsert] at h
    by_cases hq : (q.1 == k) = true
    · rw [if_pos hq] at h
      rcases List.mem_cons.mp h with h | h
      · exact Or.inl h
      · exact Or.inr (List.mem_cons_of_mem _ h)
    · rw [if_neg hq] at h
      rcases List.mem_cons.mp h with h | h
      · exact Or.inr (h ▸ List.mem_cons_self _ _)
      · rcases ih h with h2 | h2
        · exact Or.inl h2
        · exact Or.inr (List.mem_cons_of_mem _ h2)

/-- A successful lookup exhibits the pair in the map. -/
theorem mem_of_alookup {K V : Type} [BEq K] [LawfulBEq K]
    {m : List (K × V)} {k : K} {v : V} (h : alookup m k = some v) : (k, v) ∈ m := by
  induction m with
  | nil => simp [alookup] at h
  | cons p t ih =>
    simp only [alookup] at h
    by_cases hp : (p.1 == k) = true
    · obtain ⟨p1, p2⟩ := p
      simp only [alookup] at h
      simp only [beq_iff_eq] at hp
      simp only [hp, beq_self_eq_true, if_true, Option.some.injEq] at h
      rw [← hp, ← h]
      exact List.mem_cons_self _ _
    · simp only [Bool.not_eq_true] at hp
      simp only [hp, Bool.false_eq_true, if_false] at h
      exact List.mem_cons_of_mem _ (ih h)

/-- Membership in `HashSet::insert`. -/
theorem mem_sinsert {s : List Nat} {u x : Nat} :
    x ∈ sinsert s u ↔ x = u ∨ x ∈ s := by
  unfold sinsert
  by_cases h : s.contains u = true
  · simp only [h, if_true]
    constructor
    · exact Or.inr
    · rintro (rfl | hx)
      · exact List.mem_of_elem_eq_true h
      · exact hx
  · have h2 : s.contains u = false := by simpa using h
    simp only [h2, Bool.false_eq_true, if_false, List.mem_append, List.mem_singleton]
    tauto

/-- Membership in `HashSet::remove`. -/
theorem mem_sremove {s : List Nat} {u x : Nat} :
    x ∈ sremove s u ↔ x ∈ s ∧ x ≠ u := by
  simp [sremove, List.mem_filter]

/-- `contains` is false on non-members. -/
theorem contains_eq_false_of_not_mem {l : List Nat} {a : Nat} (h : ¬ a ∈ l) :
    l.contains a = false := by
  cases hcb : l.contains a with
  | false => rfl
  | true => exact absurd (List.mem_of_elem_eq_true hcb) h

/-! ### Characterizations of the registry operations -/

/-- `remove_user` when the user is present: the entry is erased and the
user is evicted from every subscriber set. -/
theorem remove_user_present (s : SubscriptionData) (uid : Nat)
    (hin : (alookup s.users uid).isSome = true) :
    remove_user s uid
      = { s with
          users := aerase s.users uid,
          subscriptions := s.subscriptions.map (fun p => (p.1, sremove p.2 uid)) } := by
  unfold remove_user; rw [if_pos hin]

/-- `remove_user` when the user is absent: no subscriber set is touched. -/
theorem remove_user_absent (s : SubscriptionData) (uid : Nat)
    (hin : ¬ (alookup s.users uid).isSome = true) :
    remove_user s uid = { s with users := aerase s.users uid } := by
  unfold remove_user; rw [if_neg hin]

/-- `subscribe_user` on an unknown request key. -/
theorem subscribe_user_none (s : SubscriptionData) (uid : Nat) (k : String)
    (h : alookup s.incoming_subscriptions k = none) :
    subscribe_user s uid k
      = (.error ("Subscription " ++ k ++ " does not exist!"), s) := by
  unfold subscribe_user; rw [h]

/-- `subscribe_user` on a registered request key. -/
theorem subscribe_user_some (s : SubscriptionData) (uid : Nat) (k : String)
    (nsi : NodeSubInfo) (h : alookup s.incoming_subscriptions k = some nsi) :
    subscribe_user s uid k
      = (.ok nsi.subscription_id,
         { s with
           subscriptions := ainsert s.subscriptions nsi
             (sinsert ((alookup s.subscriptions nsi).getD []) uid) }) := by
  unfold subscribe_user; rw [h]

/-- `dispatch_to_subscribers` rejects call results. -/
theorem dispatch_call (s : SubscriptionData) (sid : String) (nid : Nat) (v : Json) :
    dispatch_to_subscribers s sid nid (.Call v)
      = (.error "Trying to send a call as a subscription!", s) := rfl

/-- `dispatch_to_subscribers` when the NodeSub has no entry. -/
theorem dispatch_no_entry (s : SubscriptionData) (sid : String) (nid : Nat) (v : Json)
    (h : alookup s.subscriptions { node_id := nid, subscription_id := sid } = none) :
    dispatch_to_subscribers s sid nid (.Subscription v) = (.ok [], s) := by
  simp only [dispatch_to_subscribers]
  rw [h]

/-- `dispatch_to_subscribers` when the NodeSub has an entry. -/
theorem dispatch_entry (s : SubscriptionData) (sid : String) (nid : Nat) (v : Json)
    (subs : List Nat)
    (h : alookup s.subscriptions { node_id := nid, subscription_id := sid } = some subs) :
    dispatch_to_subscribers s sid nid (.Subscription v)
      = (.ok ((subs.filter (fun u => (alookup s.users u).isSome)).map
            (fun u => (u, RequestResult.Subscription v))),
         if subs.isEmpty then unregister_subscription s sid else s) := by
  simp only [dispatch_to_subscribers]
  rw [h]

/-- Dispatch never changes the `users` map. -/
theorem dispatch_users_eq (s : SubscriptionData) (sid : String) (nid : Nat)
    (msg : RequestResult) :
    (dispatch_to_subscribers s sid nid msg).2.users = s.users := by
  cases msg with
  | Call v => rfl
  | Subscription v =>
    cases h : alookup s.subscriptions { node_id := nid, subscription_id := sid } with
    | none => rw [dispatch_no_entry s sid nid v h]
    | some subs =>
      rw [dispatch_entry s sid nid v subs h]
      by_cases he : subs.isEmpty = true
      · simp [he, unregister_subscription]
      · simp [he]

/-- Dispatch never changes the `subscriptions` map. -/
theorem dispatch_subscriptions_eq (s : SubscriptionData) (sid : String) (nid : Nat)
    (msg : RequestResult) :
    (dispatch_to_subscribers s sid nid msg).2.subscriptions = s.subscriptions := by
  cases msg with
  | Call v => rfl
  | Subscription v =>
    cases h : alookup s.subscriptions { node_id := nid, subscription_id := sid } with
    | none => rw [dispatch_no_entry s sid nid v h]
    | some subs =>
      rw [dispatch_entry s sid nid v subs h]
      by_cases he : subs.isEmpty = true
      · simp [he, unregister_subscription]
      · simp [he]

/-! ### Preservation of the user-reference invariant -/

/-- Unfolding of the user-reference invariant. -/
theorem usersClosed_iff (s : SubscriptionData) :
    usersClosed s = true ↔
      ∀ p ∈ s.subscriptions, ∀ u ∈ p.2, (alookup s.users u).isSome = true := by
  simp [usersClosed, List.all_eq_true]

/-- The invariant only reads `users` and `subscriptions`. -/
theorem usersClosed_congr {s1 s2 : SubscriptionData}
    (hu : s1.users = s2.users) (hs : s1.subscriptions = s2.subscriptions) :
    usersClosed s1 = usersClosed s2 := by
  simp [usersClosed, hu, hs]

/-- `add_user` preserves the user-reference invariant. -/
theorem usersClosed_add_user (s : SubscriptionData) (uid : Nat) (ud : UserData)
    (h : usersClosed s = true) : usersClosed (add_user s uid ud) = true := by
  rw [usersClosed_iff] at h ⊢
  intro p hp u hu
  have hp2 : p ∈ s.subscriptions := hp
  show (alookup (ainsert s.users uid ud) u).isSome = true
  by_cases hc : u = uid
  · subst hc; rw [alookup_ainsert_self]; rfl
  · rw [alookup_ainsert_ne _ _ _ _ hc]
    exact h p hp2 u hu

/-- `remove_user` preserves the user-reference invariant. -/
theorem usersClosed_remove_user (s : SubscriptionData) (uid : Nat)
    (h : usersClosed s = true) : usersClosed (remove_user s uid) = true := by
  rw [usersClosed_iff] at h
  by_cases hin : (alookup s.users uid).isSome = true
  · rw [remove_user_present s uid hin, usersClosed_iff]
    intro p hp u hu
    obtain ⟨q, hq, rfl⟩ := List.mem_map.mp hp
    have hu2 := mem_sremove.mp hu
    show (alookup (aerase s.users uid) u).isSome = true
    rw [alookup_aerase_ne _ _ _ hu2.2]
    exact h q hq u hu2.1
  · rw [remove_user_absent s uid hin, usersClosed_iff]
    intro p hp u hu
    have hsome := h p hp u hu
    show (alookup (aerase s.users uid) u).isSome = true
    by_cases hc : u = uid
    · subst hc; exact absurd hsome hin
    · rw [alookup_aerase_ne _ _ _ hc]
      exact hsome

/-- `register_subscription` does not touch `users` or `subscriptions`. -/
theorem usersClosed_register (s : SubscriptionData) (k sid : String) (nid : Nat) :
    usersClosed (register_subscription s k sid nid) = usersClosed s := rfl

/-- `unregister_subscription` does not touch `users` or `subscriptions`. -/
theorem usersClosed_unregister (s : SubscriptionData) (k : String) :
    usersClosed (unregister_subscription s k) = usersClosed s := rfl

/-- `subscribe_user` preserves the user-reference invariant when the
subscribing user is present in `users`. -/
theorem usersClosed_subscribe_user (s : SubscriptionData) (uid : Nat) (k : String)
    (h : usersClosed s = true) (hu : (alookup s.users uid).isSome = true) :
    usersClosed (subscribe_user s uid k).2 = true := by
  cases hinc : alookup s.incoming_subscriptions k with
  | none => rw [subscribe_user_none s uid k hinc]; exact h
  | some nsi =>
    rw [subscribe_user_some s uid k nsi hinc]
    rw [usersClosed_iff] at h ⊢
    intro p hp u hup
    have hp2 : p ∈ ainsert s.subscriptions nsi
        (sinsert ((alookup s.subscriptions nsi).getD []) uid) := hp
    show (alookup s.users u).isSome = true
    rcases mem_ainsert hp2 with hpe | hpm
    · rw [hpe] at hup
      rcases mem_sinsert.mp hup with rfl | hcur
      · exact hu
      · cases hsub : alookup s.subscriptions nsi with
        | none => rw [hsub] at hcur; simp at hcur
        | some set =>
          rw [hsub] at hcur
          exact h (nsi, set) (mem_of_alookup hsub) u hcur
    · exact h p hpm u hup

/-- `unsubscribe_user` preserves the user-reference invariant. -/
theorem usersClosed_unsubscribe_user (s : SubscriptionData) (uid : Nat) (sid : String)
    (h : usersClosed s = true) : usersClosed (unsubscribe_user s uid sid) = true := by
  rw [usersClosed_iff] at h ⊢
  intro p hp u hup
  have hp2 : p ∈ s.subscriptions.map (fun q =>
      if q.1.subscription_id == sid && q.2.contains uid then (q.1, sremove q.2 uid)
      else q) := hp
  obtain ⟨q, hq, hfq⟩ := List.mem_map.mp hp2
  show (alookup s.users u).isSome = true
  by_cases hc : (q.1.subscription_id == sid && q.2.contains uid) = true
  · rw [if_pos hc] at hfq
    rw [← hfq] at hup
    exact h q hq u (mem_sremove.mp hup).1
  · rw [if_neg hc] at hfq
    rw [← hfq] at hup
    exact h q hq u hup

/-- Dispatch preserves the user-reference invariant. -/
theorem usersClosed_dispatch (s : SubscriptionData) (sid : String) (nid : Nat)
    (msg : RequestResult) :
    usersClosed (dispatch_to_subscribers s sid nid msg).2 = usersClosed s :=
  usersClosed_congr (dispatch_users_eq s sid nid msg)
    (dispatch_subscriptions_eq s sid nid msg)

/-! ### Claim theorems -/

/-- C1 (code bug).  In the spec's single-call round-trip scenario the call
`{"jsonrpc":"2.0","id":"abc","method":"eth_blockNumber"}` is sent with its
`id` rewritten to the wire id (draw 7), and the upstream replies carrying
that wire id and `"result":"0x10"` — but `execute_ws_call` skips this reply
forever (its matching loop compares against the *original* id `"abc"`), so
it never returns the upstream response with the caller's id restored. -/
theorem execute_ws_call_misses_wire_id_reply :
    (execute_ws_call scenarioCall 7 [scenarioWireReply]).1.getField "id" = Json.num 7
    ∧ (execute_ws_call scenarioCall 7 [scenarioWireReply]).2 = none :=
  ⟨rfl, rfl⟩

/-- C2 (code bug).  The correlator of `execute_ws_call` does not accept the
broadcast message whose `id` equals the freshly generated wire id (draw 7):
it skips it, and instead accepts a message whose `id` equals the caller's
original id `"abc"` — the loop `while response["id"] != id` compares
against the original id, not the wire id. -/
theorem correlator_matches_original_id_not_wire_id :
    (execute_ws_call scenarioCall 7 [scenarioWireReply]).2 = none
    ∧ (execute_ws_call scenarioCall 7 [scenarioOrigIdReply]).2 = some scenarioOrigIdReply :=
  ⟨rfl, rfl⟩

/-- C3 (code bug).  For every selector choice and every received request,
the receive-loop body of `ws_conn_manager` pushes nothing onto any worker
outbound queue: the request is dropped after `pick` is evaluated, so it
never reaches an upstream worker (the claim requires exactly one push). -/
theorem ws_conn_manager_forwards_nothing :
    ∀ (pick_position : Nat) (incoming : Json),
      (ws_conn_manager_iteration pick_position incoming).forwarded = [] :=
  fun _ _ => rfl

/-- C4 (code bug).  Wire ids are independent `random::<u32>()` draws with no
uniqueness tracking: on the random stream that yields 0 twice, two
concurrently pending calls (caller ids `"1"` and `"2"`) obtain the same
wire id and place identical `id` values on the wire. -/
theorem wire_id_collision :
    wire_id (fun _ => 0) 0 = wire_id (fun _ => 0) 1
    ∧ (execute_ws_call scenarioCallA (wire_id (fun _ => 0) 0) []).1.getField "id"
      = (execute_ws_call scenarioCallB (wire_id (fun _ => 0) 1) []).1.getField "id" :=
  ⟨rfl, rfl⟩

/-- C5 (code bug).  In `emptySetState` the NodeSub `(1, "200")` has an entry
with an empty subscriber set and `incoming` maps the request key `"sub200"`
to it.  Dispatch returns success, but the NodeSub is *not* retired: the
source calls `unregister_subscription` with the upstream subscription id
`"200"` as key, while the `incoming` map is keyed by the request string, so
the entry whose value is the NodeSub survives. -/
theorem dispatch_empty_does_not_retire_nodesub :
    (dispatch_to_subscribers emptySetState "200" 1 (.Subscription (.str "ping"))).1 = .ok []
    ∧ (dispatch_to_subscribers emptySetState "200" 1
        (.Subscription (.str "ping"))).2.incoming_subscriptions
      = [("sub200", { node_id := 1, subscription_id := "200" })] :=
  ⟨rfl, rfl⟩

/-- C6, counterexample.  `ghostUserState` is reachable from the empty
registry by `register_subscription` followed by `subscribe_user` for user
42, who was never added to `users`; in it user 42 sits in a subscriber set
while absent from `users`, so the user-reference invariant fails. -/
theorem subscriber_not_in_users_reachable :
    Reachable ghostUserState ∧ usersClosed ghostUserState = false :=
  ⟨Reachable.subscribeUser 42 "k" (Reachable.registerSub "k" "s" 0 Reachable.init), rfl⟩

/-- C7, counterexample.  In `ghostUserState` user 42 is in a subscriber set
but not in `users`; `remove_user 42` takes the branch that skips eviction,
so a subscriber set still contains 42 afterwards. -/
theorem remove_user_leaves_ghost_subscriber :
    ((remove_user ghostUserState 42).subscriptions.any (fun p => p.2.contains 42)) = true :=
  rfl

/-- C9, counterexample.  When the key `"k"` is already present in `incoming`
(mapped to NodeSub `(0, "a")`), registering `"k"` for NodeSub `(1, "b")` and
then unregistering `"k"` leaves `incoming` empty, not equal to its prior
one-entry state. -/
theorem register_unregister_not_involutive :
    (unregister_subscription
        (register_subscription (register_subscription SubscriptionData.new "k" "a" 0)
          "k" "b" 1)
        "k").incoming_subscriptions
      ≠ (register_subscription SubscriptionData.new "k" "a" 0).incoming_subscriptions := by
  decide

/-- C6 (corrected, amended claim).  In every state reachable from the empty
`SubscriptionData` by sequences of the seven registry operations in which
each `subscribe_user` call is made with a user id currently present in
`users`, every user id contained in any subscriber set of `subscriptions`
is present as a key in `users`. -/
theorem usersClosed_of_reachableGuarded (s : SubscriptionData)
    (h : ReachableGuarded s) : usersClosed s = true := by
  induction h with
  | init => rfl
  | addUser uid ud _ ih => exact usersClosed_add_user _ uid ud ih
  | removeUser uid _ ih => exact usersClosed_remove_user _ uid ih
  | registerSub k sid nid _ ih => rw [usersClosed_register]; exact ih
  | unregisterSub k _ ih => rw [usersClosed_unregister]; exact ih
  | subscribeUser uid k _ hg ih => exact usersClosed_subscribe_user _ uid k ih hg
  | unsubscribeUser uid sid _ ih => exact usersClosed_unsubscribe_user _ uid sid ih
  | dispatch sid nid msg _ ih => rw [usersClosed_dispatch]; exact ih

/-- C6, witness: the guarded-reachable state in which user 100 was added,
`"sub300"` was registered and user 100 subscribed satisfies the invariant. -/
theorem usersClosed_of_reachableGuarded_witness :
    usersClosed oneSubscriberState = true :=
  usersClosed_of_reachableGuarded oneSubscriberState
    (ReachableGuarded.subscribeUser 100 "sub300"
      (ReachableGuarded.registerSub "sub300" "300" 1
        (ReachableGuarded.addUser 100 { message_channel := 5 } ReachableGuarded.init))
      rfl)

/-- C7 (corrected, amended claim).  In every state satisfying the
user-reference invariant (in particular every state of the intended
call discipline), after `remove_user u` no subscriber set contains `u`:
when `u` is in `users` the eviction branch clears it from every set, and
when `u` is not in `users` the invariant says no set contained it. -/
theorem remove_user_evicts_subscriber (s : SubscriptionData) (u : Nat)
    (h : usersClosed s = true) : noSubscriber (remove_user s u) u = true := by
  rw [usersClosed_iff] at h
  simp only [noSubscriber, List.all_eq_true]
  intro p hp
  by_cases hin : (alookup s.users u).isSome = true
  · rw [remove_user_present s u hin] at hp
    obtain ⟨q, hq, rfl⟩ := List.mem_map.mp hp
    have hnm : ¬ u ∈ sremove q.2 u := fun hc => (mem_sremove.mp hc).2 rfl
    show (!((sremove q.2 u).contains u)) = true
    rw [contains_eq_false_of_not_mem hnm]
    rfl
  · rw [remove_user_absent s u hin] at hp
    have hnm : ¬ u ∈ p.2 := fun hc => hin (h p hp u hc)
    rw [contains_eq_false_of_not_mem hnm]
    rfl

/-- C7, witness: removing user 100 from the invariant-satisfying state with
one subscription leaves no subscriber set containing 100. -/
theorem remove_user_evicts_subscriber_witness :
    noSubscriber (remove_user oneSubscriberState 100) 100 = true :=
  remove_user_evicts_subscriber oneSubscriberState 100 rfl

/-- C8 (confirmed).  `subscribe_user user_id request_key` errors exactly
when `request_key` is absent from `incoming` (leaving the state — all three
maps — unchanged), and otherwise returns the upstream subscription id of
the NodeSub that `incoming` maps the key to, adds `user_id` to that
NodeSub's subscriber set (created fresh when absent), and changes nothing
else. -/
theorem subscribe_user_spec (s : SubscriptionData) (uid : Nat) (k : String) :
    (alookup s.incoming_subscriptions k = none →
      (subscribe_user s uid k).1
          = .error ("Subscription " ++ k ++ " does not exist!")
        ∧ (subscribe_user s uid k).2 = s)
    ∧ (∀ nsi : NodeSubInfo, alookup s.incoming_subscriptions k = some nsi →
        (subscribe_user s uid k).1 = .ok nsi.subscription_id
        ∧ (subscribe_user s uid k).2.users = s.users
        ∧ (subscribe_user s uid k).2.incoming_subscriptions = s.incoming_subscriptions
        ∧ (∀ v : Nat,
            v ∈ (alookup (subscribe_user s uid k).2.subscriptions nsi).getD []
              ↔ v = uid ∨ v ∈ (alookup s.subscriptions nsi).getD [])
        ∧ (∀ nsi2 : NodeSubInfo, nsi2 ≠ nsi →
            alookup (subscribe_user s uid k).2.subscriptions nsi2
              = alookup s.subscriptions nsi2)) := by
  constructor
  · intro h
    rw [subscribe_user_none s uid k h]
    exact ⟨rfl, rfl⟩
  · intro nsi h
    rw [subscribe_user_some s uid k nsi h]
    refine ⟨rfl, rfl, rfl, ?_, ?_⟩
    · intro v
      show v ∈ (alookup (ainsert s.subscriptions nsi
          (sinsert ((alookup s.subscriptions nsi).getD []) uid)) nsi).getD [] ↔ _
      rw [alookup_ainsert_self]
      show v ∈ sinsert ((alookup s.subscriptions nsi).getD []) uid ↔ _
      exact mem_sinsert
    · intro nsi2 h2
      show alookup (ainsert s.subscriptions nsi
          (sinsert ((alookup s.subscriptions nsi).getD []) uid)) nsi2 = _
      exact alookup_ainsert_ne _ _ _ _ h2

/-- C8, witness: subscribing user 7 under the registered key `"sub300"`
returns the upstream subscription id `"300"`. -/
theorem subscribe_user_spec_witness :
    (subscribe_user oneSubscriberState 7 "sub300").1 = .ok "300" :=
  ((subscribe_user_spec oneSubscriberState 7 "sub300").2
    { node_id := 1, subscription_id := "300" } rfl).1

/-- C9 (corrected, amended claim).  When the request key is *not* already
present in `incoming`, `register_subscription` followed by
`unregister_subscription` with the same key leaves `incoming` equal to the
state it had before the register call. -/
theorem register_unregister_roundtrip (s : SubscriptionData) (k sid : String)
    (nid : Nat) (h : alookup s.incoming_subscriptions k = none) :
    (unregister_subscription (register_subscription s k sid nid)
        k).incoming_subscriptions
      = s.incoming_subscriptions := by
  show aerase (ainsert s.incoming_subscriptions k
      { node_id := nid, subscription_id := sid }) k = s.incoming_subscriptions
  rw [ainsert_eq_append_of_none _ _ _ h, aerase_append,
    aerase_eq_of_alookup_none _ _ h]
  have hone : aerase [(k, ({ node_id := nid, subscription_id := sid } : NodeSubInfo))] k
      = [] := by
    simp [aerase]
  rw [hone, List.append_nil]

/-- C9, witness: registering and unregistering the fresh key `"fresh"`
restores the `incoming` map. -/
theorem register_unregister_roundtrip_witness :
    (unregister_subscription (register_subscription oneSubscriberState "fresh" "9" 0)
        "fresh").incoming_subscriptions
      = oneSubscriberState.incoming_subscriptions :=
  register_unregister_roundtrip oneSubscriberState "fresh" "9" 0 rfl

/-- C10 (confirmed).  When the NodeSub `(nid, sid)` has a subscriber-set
entry, dispatching a `Subscription` message succeeds and delivers one clone
of the message to exactly those user ids that are both in the subscriber
set and present as keys in `users`; subscriber ids with no `users` entry
receive nothing and trigger no error and no removal (`users` and
`subscriptions` are unchanged). -/
theorem dispatch_delivers_exactly_present_subscribers (s : SubscriptionData)
    (sid : String) (nid : Nat) (j : Json) (subs : List Nat)
    (h : alookup s.subscriptions { node_id := nid, subscription_id := sid }
        = some subs) :
    ∃ d, (dispatch_to_subscribers s sid nid (.Subscription j)).1 = .ok d
      ∧ (∀ u : Nat, (u, RequestResult.Subscription j) ∈ d
            ↔ u ∈ subs ∧ (alookup s.users u).isSome = true)
      ∧ (∀ x ∈ d, x.2 = RequestResult.Subscription j)
      ∧ (dispatch_to_subscribers s sid nid (.Subscription j)).2.users = s.users
      ∧ (dispatch_to_subscribers s sid nid (.Subscription j)).2.subscriptions
          = s.subscriptions := by
  refine ⟨(subs.filter (fun u => (alookup s.users u).isSome)).map
      (fun u => (u, RequestResult.Subscription j)), ?_, ?_, ?_, ?_, ?_⟩
  · rw [dispatch_entry s sid nid j subs h]
  · intro u
    constructor
    · intro hm
      obtain ⟨a, ha, hae⟩ := List.mem_map.mp hm
      obtain ⟨ha1, ha2⟩ := List.mem_filter.mp ha
      have hau : a = u := congrArg Prod.fst hae
      subst hau
      exact ⟨ha1, ha2⟩
    · intro hu
      exact List.mem_map.mpr ⟨u, List.mem_filter.mpr ⟨hu.1, hu.2⟩, rfl⟩
  · intro x hx
    obtain ⟨a, _, hae⟩ := List.mem_map.mp hx
    rw [← hae]
  · exact dispatch_users_eq s sid nid _
  · exact dispatch_subscriptions_eq s sid nid _

/-- C10, witness: in `twoSubscriberState` (subscriber set `[100, 7]`, only
user 100 present in `users`) dispatch succeeds, delivers to 100 and skips 7. -/
theorem dispatch_delivers_exactly_present_subscribers_witness :
    ∃ d, (dispatch_to_subscribers twoSubscriberState "300" 1
          (.Subscription (.str "note"))).1 = .ok d
      ∧ (100, RequestResult.Subscription (.str "note")) ∈ d
      ∧ ¬ (7, RequestResult.Subscription (.str "note")) ∈ d := by
  obtain ⟨d, h1, h2, -, -, -⟩ :=
    dispatch_delivers_exactly_present_subscribers twoSubscriberState "300" 1
      (.str "note") [100, 7] rfl
  refine ⟨d, h1, (h2 100).mpr ⟨by simp, rfl⟩, fun hc => ?_⟩
  exact absurd ((h2 7).mp hc).2 (by decide)

end Blutgang
